import Mathlib

/-!
Verification of the HW5 pipe friction-factor program (hw5a.py, hw5b.py).

The program computes the Darcy friction factor for pipe flow:
laminar flow uses the closed form `64/Re`; turbulent flow solves the implicit
Colebrook relation numerically with `scipy.optimize.fsolve`; transitional flow
(2000 < Re < 4000) draws one sample from a normal distribution whose
parameters come from the two boundary values.  It also builds a Moody diagram
(`plotMoody`) from three log-spaced Reynolds ranges and a fixed list of 20
relative-roughness values.

Embedding conventions:
* Machine floats are modelled as real numbers `ℝ`.
* The external root-finder `scipy.optimize.fsolve` is modelled as an oracle
  `Solver` parameter.  One call produces a `SolverOutcome`: the numeric value
  the solver hands back (`result[0]` in the Python) together with a flag
  recording whether the solver internally converged.  The Python code never
  requests or inspects that flag; faithfully, the embedded `ff` only ever
  projects `.value`.
* `random.normalvariate` is modelled as an oracle `ℝ → ℝ → ℝ` taking the mean
  and standard deviation that the code passes to it.
* The rendering toolkit (matplotlib) is a black box: `plotMoody` is embedded
  as the chart description it constructs (the curves as lists of (Re, f)
  points, the axis limits, the optional overlay point).  Pure styling calls
  (grid, ticks, fonts, annotations) carry no data the claims mention and are
  not part of the chart description.
-/

namespace HW5

/-- Outcome of one call to the external root-finder (`scipy.optimize.fsolve`):
`value` is the scalar the solver returns (`result[0]`), `converged` records
whether the solver internally converged.  The Python caller never asks for
the convergence information. -/
structure SolverOutcome where
  value : ℝ
  converged : Bool

/-- The external root-finder as an oracle: it receives the residual function
and the initial guess, and produces a `SolverOutcome`. -/
abbrev Solver : Type := (ℝ → ℝ) → ℝ → SolverOutcome

/-- The Colebrook residual, embedding the lambda `cb` inside `ff` in hw5a.py:
`cb = lambda f: 1/np.sqrt(abs(f)) + 2.0*np.log10((rr/3.7) + (2.51/(Re*np.sqrt(abs(f)))))`.
`np.log10` is log base 10 (`Real.logb 10`); the absolute values guard against
the solver probing negative `f`. -/
noncomputable def cb (Re rr f : ℝ) : ℝ :=
  1 / Real.sqrt |f| + 2 * Real.logb 10 (rr / 3.7 + 2.51 / (Re * Real.sqrt |f|))

/-- Embeds `ff(Re, rr, CBEQN)` from hw5a.py.  If `CBEQN` is true it calls
`fsolve(cb, max(0.02, 1e-5))` and returns `result[0]` (the `.value`
projection, with no convergence check); otherwise it returns `64/Re`. -/
noncomputable def ff (solve : Solver) (Re rr : ℝ) (CBEQN : Bool) : ℝ :=
  if CBEQN then (solve (cb Re rr) (max 0.02 1e-5)).value
  else 64 / Re

/-- Embeds `ffPoint(Re, rr)` from hw5b.py.  `normalvariate` is the oracle for
`random.normalvariate(mean, sig)`. -/
noncomputable def ffPoint (solve : Solver) (normalvariate : ℝ → ℝ → ℝ)
    (Re rr : ℝ) : ℝ :=
  if Re ≥ 4000 then ff solve Re rr true
  else if Re ≤ 2000 then ff solve Re rr false
  else
    let CBff := ff solve 4000 rr true
    let Lamff := ff solve 2000 rr false
    let mean := (CBff + Lamff) / 2
    let sig := 0.2 * mean
    normalvariate mean sig

/-- A concrete solver oracle used for witnesses: it always reports the value
0.02 and convergence. -/
def oneSolver : Solver := fun _ _ => ⟨0.02, true⟩

/-- A concrete normal-draw oracle used for witnesses: it returns the mean. -/
def meanDraw : ℝ → ℝ → ℝ := fun m _ => m

/-- Claim C1: for every Re > 0 and rr in [0, 0.05], `ffPoint` dispatches by
regime: Re ≥ 4000 gives the turbulent branch `ff(Re, rr, CBEQN=True)`,
Re ≤ 2000 gives the laminar branch `ff(Re, rr)`, and only for
2000 < Re < 4000 is the stochastic transitional draw taken. -/
theorem claim_C1_regime_dispatch (solve : Solver) (nv : ℝ → ℝ → ℝ) (Re rr : ℝ)
    (hRe : 0 < Re) (hrr0 : 0 ≤ rr) (hrr1 : rr ≤ 0.05) :
    (4000 ≤ Re → ffPoint solve nv Re rr = ff solve Re rr true) ∧
    (Re ≤ 2000 → ffPoint solve nv Re rr = ff solve Re rr false) ∧
    (2000 < Re → Re < 4000 →
      ffPoint solve nv Re rr =
        nv ((ff solve 4000 rr true + ff solve 2000 rr false) / 2)
          (0.2 * ((ff solve 4000 rr true + ff solve 2000 rr false) / 2))) := by
  refine ⟨fun h => ?_, fun h => ?_, fun h1 h2 => ?_⟩
  · unfold ffPoint
    rw [if_pos (show Re ≥ 4000 from h)]
  · unfold ffPoint
    rw [if_neg (show ¬ Re ≥ 4000 from not_le.mpr (by linarith)), if_pos h]
  · unfold ffPoint
    rw [if_neg (show ¬ Re ≥ 4000 from not_le.mpr h2), if_neg (not_le.mpr h1)]

/-- Witness for C1 at solve = oneSolver, nv = meanDraw, Re = 5000,
rr = 0.001. -/
theorem claim_C1_regime_dispatch_witness :
    (0 : ℝ) < 5000 ∧ (0 : ℝ) ≤ 0.001 ∧ (0.001 : ℝ) ≤ 0.05 ∧
      ((4000 : ℝ) ≤ 5000 →
        ffPoint oneSolver meanDraw 5000 0.001 = ff oneSolver 5000 0.001 true) :=
  ⟨by norm_num, by norm_num, by norm_num,
    (claim_C1_regime_dispatch oneSolver meanDraw 5000 0.001 (by norm_num)
      (by norm_num) (by norm_num)).1⟩

/-- Helper: `ffPoint` on the laminar side (Re ≤ 2000) reduces to the laminar
formula 64/Re, for every rr. -/
lemma ffPoint_laminar_eq (solve : Solver) (nv : ℝ → ℝ → ℝ) (Re rr : ℝ)
    (h2 : Re ≤ 2000) : ffPoint solve nv Re rr = 64 / Re := by
  unfold ffPoint
  rw [if_neg (show ¬ Re ≥ 4000 from not_le.mpr (by linarith)), if_pos h2]
  rfl

/-- Claim C2: for every Re in (0, 2000] and every rr, the laminar branch
(`ff` with CBEQN = False, and `ffPoint` when Re ≤ 2000) returns exactly
64/Re; since the statement holds for all rr, the result does not depend
on rr. -/
theorem claim_C2_laminar (solve : Solver) (nv : ℝ → ℝ → ℝ) (Re rr : ℝ)
    (h0 : 0 < Re) (h2 : Re ≤ 2000) :
    ff solve Re rr false = 64 / Re ∧ ffPoint solve nv Re rr = 64 / Re :=
  ⟨rfl, ffPoint_laminar_eq solve nv Re rr h2⟩

/-- Witness for C2 at Re = 1000, rr = 0. -/
theorem claim_C2_laminar_witness :
    (0 : ℝ) < 1000 ∧ (1000 : ℝ) ≤ 2000 ∧
      ff oneSolver 1000 0 false = 64 / 1000 ∧
      ffPoint oneSolver meanDraw 1000 0 = 64 / 1000 :=
  ⟨by norm_num, by norm_num,
    (claim_C2_laminar oneSolver meanDraw 1000 0 (by norm_num) (by norm_num)).1,
    (claim_C2_laminar oneSolver meanDraw 1000 0 (by norm_num) (by norm_num)).2⟩

/-- Claim C4: for 2000 < Re < 4000 and rr in [0, 0.05], `ffPoint` returns the
one draw `normalvariate(mean, sig)` where `mean = (CBf + Lf)/2` with
`CBf = ff(4000, rr, CBEQN=True)` and `Lf = ff(2000, rr) = 64/2000`, and
`sig = 0.2 * mean`; and the distribution parameters do not depend on the
particular Re inside the interval (any two such Re give the same result). -/
theorem claim_C4_transitional_draw (solve : Solver) (nv : ℝ → ℝ → ℝ)
    (Re rr : ℝ) (h1 : 2000 < Re) (h2 : Re < 4000)
    (hrr0 : 0 ≤ rr) (hrr1 : rr ≤ 0.05) :
    ffPoint solve nv Re rr =
      nv ((ff solve 4000 rr true + 64 / 2000) / 2)
        (0.2 * ((ff solve 4000 rr true + 64 / 2000) / 2)) ∧
    (∀ Re' : ℝ, 2000 < Re' → Re' < 4000 →
      ffPoint solve nv Re' rr = ffPoint solve nv Re rr) := by
  have hbranch : ∀ R : ℝ, 2000 < R → R < 4000 →
      ffPoint solve nv R rr =
        nv ((ff solve 4000 rr true + 64 / 2000) / 2)
          (0.2 * ((ff solve 4000 rr true + 64 / 2000) / 2)) := by
    intro R hR1 hR2
    unfold ffPoint
    rw [if_neg (show ¬ R ≥ 4000 from not_le.mpr hR2), if_neg (not_le.mpr hR1)]
    rfl
  refine ⟨hbranch Re h1 h2, fun Re' h1' h2' => ?_⟩
  rw [hbranch Re' h1' h2', hbranch Re h1 h2]

/-- Witness for C4 at Re = 3000, Re' = 2500, rr = 0.001. -/
theorem claim_C4_transitional_draw_witness :
    (2000 : ℝ) < 3000 ∧ (3000 : ℝ) < 4000 ∧ (0 : ℝ) ≤ 0.001 ∧
      (0.001 : ℝ) ≤ 0.05 ∧ (2000 : ℝ) < 2500 ∧ (2500 : ℝ) < 4000 ∧
      ffPoint oneSolver meanDraw 2500 0.001 =
        ffPoint oneSolver meanDraw 3000 0.001 :=
  ⟨by norm_num, by norm_num, by norm_num, by norm_num, by norm_num, by norm_num,
    (claim_C4_transitional_draw oneSolver meanDraw 3000 0.001 (by norm_num)
        (by norm_num) (by norm_num) (by norm_num)).2
      2500 (by norm_num) (by norm_num)⟩

/-- Follows the spec words of §7 for C5 only, to contrast with the code: a
compliant engine would inspect the solver convergence information and report
non-convergence as a distinguishable DomainError instead of returning the
scalar.  `ff` in hw5a.py does not do this. -/
noncomputable def ffCheckedSpec (solve : Solver) (Re rr : ℝ) (CBEQN : Bool) :
    Except String ℝ :=
  if CBEQN then
    let o := solve (cb Re rr) (max 0.02 1e-5)
    if o.converged then Except.ok o.value else Except.error "DomainError"
  else Except.ok (64 / Re)

/-- Counterexample for C5: two solver behaviours that return the same scalar,
one converged and one not, give the *identical* plain result through `ff`
(the code returns `result[0]` without ever requesting convergence
information), so non-convergence is not surfaced distinguishably; a
spec-compliant checked engine would distinguish them. -/
theorem claim_C5_counterexample :
    ff (fun _ _ => ⟨0.025, true⟩) 5000 0.001 true =
      ff (fun _ _ => ⟨0.025, false⟩) 5000 0.001 true ∧
    ffCheckedSpec (fun _ _ => ⟨0.025, true⟩) 5000 0.001 true ≠
      ffCheckedSpec (fun _ _ => ⟨0.025, false⟩) 5000 0.001 true := by
  refine ⟨rfl, ?_⟩
  simp [ffCheckedSpec]

/-- Claim C5 amended: the turbulent branch performs no convergence check: for
every solver outcome, whatever its convergence flag, `ff` returns the
solver scalar unconditionally. -/
theorem claim_C5_unchecked_scalar (val : ℝ) (conv : Bool) (Re rr : ℝ) :
    ff (fun _ _ => ⟨val, conv⟩) Re rr true = val := rfl

/-- Counterexample for C6: at Re = -1000 (so Re ≤ 0) the engine raises
nothing and happily computes a (negative) friction factor 64/Re = -8/125,
contradicting the claim that no friction factor is ever computed for
Re ≤ 0.  (At Re = 0 exactly, the Python `64/Re` raises an incidental
ZeroDivisionError during the computation, not a prior DomainError.) -/
theorem claim_C6_counterexample :
    ffPoint oneSolver meanDraw (-1000) 0 = -(8 / 125) := by
  unfold ffPoint
  rw [if_neg (show ¬ (-1000 : ℝ) ≥ 4000 by norm_num),
    if_pos (show (-1000 : ℝ) ≤ 2000 by norm_num)]
  unfold ff
  norm_num

/-- Claim C6 amended: neither `ffPoint` nor `ff` validates Re: for every
Re < 0 the laminar formula is evaluated and its value 64/Re returned (a
negative friction factor), with no DomainError raised beforehand. -/
theorem claim_C6_no_validation (solve : Solver) (nv : ℝ → ℝ → ℝ) (Re rr : ℝ)
    (h : Re < 0) :
    ffPoint solve nv Re rr = 64 / Re ∧ ff solve Re rr false = 64 / Re := by
  constructor
  · unfold ffPoint
    rw [if_neg (show ¬ Re ≥ 4000 from not_le.mpr (by linarith)),
      if_pos (show Re ≤ 2000 by linarith)]
    rfl
  · rfl

/-- Witness for amended C6 at Re = -1000, rr = 0. -/
theorem claim_C6_no_validation_witness :
    (-1000 : ℝ) < 0 ∧ ffPoint oneSolver meanDraw (-1000) 0 = 64 / (-1000) :=
  ⟨by norm_num,
    (claim_C6_no_validation oneSolver meanDraw (-1000) 0 (by norm_num)).1⟩

/-- Counterexample for C7: with rr = 0.2, well outside [0, 0.05], the engine
does not reject the call: `ffPoint` at Re = 1000 computes and returns the
friction factor 64/1000 = 8/125. -/
theorem claim_C7_counterexample :
    ffPoint oneSolver meanDraw 1000 0.2 = 8 / 125 := by
  unfold ffPoint
  rw [if_neg (show ¬ (1000 : ℝ) ≥ 4000 by norm_num),
    if_pos (show (1000 : ℝ) ≤ 2000 by norm_num)]
  unfold ff
  norm_num

/-- Claim C7 amended: the engine performs no relative-roughness validation:
for every rr, including values outside [0, 0.05], the call is accepted — the
laminar branch ignores rr and returns 64/Re, and the turbulent branch passes
rr straight into the Colebrook residual handed to the solver.  No RangeError
exists anywhere in the engine. -/
theorem claim_C7_no_rr_validation (solve : Solver) (nv : ℝ → ℝ → ℝ) (rr : ℝ) :
    (∀ Re : ℝ, 0 < Re → Re ≤ 2000 → ffPoint solve nv Re rr = 64 / Re) ∧
    (∀ Re : ℝ, ff solve Re rr true = (solve (cb Re rr) (max 0.02 1e-5)).value) :=
  ⟨fun Re _ h2 => ffPoint_laminar_eq solve nv Re rr h2, fun Re => rfl⟩

/-- Witness for amended C7 at rr = 0.2 (out of range), Re = 1000. -/
theorem claim_C7_no_rr_validation_witness :
    (0 : ℝ) < 1000 ∧ (1000 : ℝ) ≤ 2000 ∧
      ffPoint oneSolver meanDraw 1000 0.2 = 64 / 1000 :=
  ⟨by norm_num, by norm_num,
    (claim_C7_no_rr_validation oneSolver meanDraw 0.2).1 1000 (by norm_num)
      (by norm_num)⟩

/-- Embeds `np.logspace(start, stop, num)`: `num` points whose base-10
logarithms are evenly spaced from `start` to `stop`. -/
noncomputable def logspace (start stop : ℝ) (num : ℕ) : List ℝ :=
  (List.range num).map fun i : ℕ =>
    (10 : ℝ) ^ (start + (stop - start) * i / ((num : ℝ) - 1))

/-- `ReValsCB` from `plotMoody`: 100 log-spaced Reynolds numbers from 4000 to
1e8, for the Colebrook (turbulent) curves. -/
noncomputable def ReValsCB : List ℝ :=
  logspace (Real.logb 10 4000) (Real.logb 10 1e8) 100

/-- `ReValsL` from `plotMoody`: 20 log-spaced Reynolds numbers from 600 to
2000, for the laminar curve. -/
noncomputable def ReValsL : List ℝ :=
  logspace (Real.logb 10 600) (Real.logb 10 2000) 20

/-- `ReValsTrans` from `plotMoody`: 50 log-spaced Reynolds numbers from 2000
to 4000, for the transitional curve. -/
noncomputable def ReValsTrans : List ℝ :=
  logspace (Real.logb 10 2000) (Real.logb 10 4000) 50

/-- The fixed array `rrVals` of 20 relative-roughness values in `plotMoody`. -/
def rrVals : List ℝ :=
  [0, 1e-6, 5e-6, 1e-5, 5e-5, 1e-4, 2e-4, 4e-4, 6e-4, 8e-4,
   1e-3, 2e-3, 4e-3, 6e-3, 8e-3, 1.5e-2, 2e-2, 3e-2, 4e-2, 5e-2]

/-- The overlay marker `plotMoody` draws when `plotPoint` is true, with the
style arguments the Python call receives. -/
structure PointMarker where
  pt : ℝ × ℝ
  marker : String
  markersize : ℝ
  markeredgecolor : String
  markerfacecolor : String
  label : Option String

/-- The chart description `plotMoody` constructs: the laminar, transitional
and turbulent (Re, f) curves, the axis limits, and the optional overlaid
point.  Pure styling (grid, tick format, fonts, the end-of-curve text
annotations) is presentation handled by the black-box renderer. -/
structure MoodyChart where
  laminarCurve : List (ℝ × ℝ)
  transitionCurve : List (ℝ × ℝ)
  turbulentCurves : List (List (ℝ × ℝ))
  xlim : ℝ × ℝ
  ylim : ℝ × ℝ
  point : Option PointMarker

/-- Embeds `plotMoody` from hw5a.py as the chart it builds: the laminar and
transitional curves use `ff(Re, 0)` (laminar formula), one turbulent curve
per entry of `rrVals` uses `ff(Re, rr, True)` over `ReValsCB`, the limits
are `plt.xlim(600, 1E8)` and `plt.ylim(0.008, 0.10)`, and the point is
drawn only when `plotPoint` is true.  The Python signature has defaults
(plotPoint=False, pt=(0,0), marker='o', markersize=10,
markeredgecolor='red', markerfacecolor='none', label=None,
clear_plot=False); here every argument is passed explicitly.  The
`clear_plot` parameter is accepted exactly as in the source, where the
function body never reads it. -/
noncomputable def plotMoody (solve : Solver) (plotPoint : Bool) (pt : ℝ × ℝ)
    (marker : String) (markersize : ℝ) (markeredgecolor : String)
    (markerfacecolor : String) (label : Option String) (clear_plot : Bool) :
    MoodyChart :=
  { laminarCurve := ReValsL.map fun Re => (Re, ff solve Re 0 false)
    transitionCurve := ReValsTrans.map fun Re => (Re, ff solve Re 0 false)
    turbulentCurves :=
      rrVals.map fun rr => ReValsCB.map fun Re => (Re, ff solve Re rr true)
    xlim := (600, 1e8)
    ylim := (0.008, 0.10)
    point :=
      if plotPoint then
        some ⟨pt, marker, markersize, markeredgecolor, markerfacecolor, label⟩
      else none }

/-- Embeds the call `pta.plotMoody(clear_plot=True)` made by `PlotPoint` in
hw5b.py: all other arguments keep their Python defaults. -/
noncomputable def PlotPointBaseChart (solve : Solver) : MoodyChart :=
  plotMoody solve false (0, 0) "o" 10 "red" "none" none true

/-- Helper: every element of `logspace (logb 10 lo) (logb 10 hi) num` lies in
the closed interval [lo, hi], for 0 < lo ≤ hi and 2 ≤ num. -/
lemma logspace_mem_Icc {lo hi : ℝ} (hlo : 0 < lo) (hle : lo ≤ hi)
    {num : ℕ} (hn : 2 ≤ num) :
    ∀ x ∈ logspace (Real.logb 10 lo) (Real.logb 10 hi) num, lo ≤ x ∧ x ≤ hi := by
  intro x hx
  unfold logspace at hx
  rcases List.mem_map.mp hx with ⟨i, hi_mem, rfl⟩
  have hhi : (0 : ℝ) < hi := lt_of_lt_of_le hlo hle
  have hL : Real.logb 10 lo ≤ Real.logb 10 hi :=
    Real.logb_le_logb_of_le (by norm_num) hlo hle
  have hnum : (0 : ℝ) < (num : ℝ) - 1 := by
    have : (2 : ℝ) ≤ (num : ℝ) := by exact_mod_cast hn
    linarith
  have hi_lt : i < num := List.mem_range.mp hi_mem
  have hfrac0 : (0 : ℝ) ≤ (i : ℝ) / ((num : ℝ) - 1) :=
    div_nonneg (Nat.cast_nonneg i) (le_of_lt hnum)
  have hfrac1 : (i : ℝ) / ((num : ℝ) - 1) ≤ 1 := by
    rw [div_le_one hnum]
    have : (i : ℝ) + 1 ≤ (num : ℝ) := by exact_mod_cast hi_lt
    linarith
  have hdiff : (0 : ℝ) ≤ Real.logb 10 hi - Real.logb 10 lo := by linarith
  have hexp_lo : Real.logb 10 lo ≤
      Real.logb 10 lo +
        (Real.logb 10 hi - Real.logb 10 lo) * (i : ℝ) / ((num : ℝ) - 1) := by
    have := mul_nonneg hdiff hfrac0
    rw [mul_div_assoc]
    linarith
  have hexp_hi : Real.logb 10 lo +
      (Real.logb 10 hi - Real.logb 10 lo) * (i : ℝ) / ((num : ℝ) - 1) ≤
        Real.logb 10 hi := by
    rw [mul_div_assoc]
    have := mul_le_of_le_one_right hdiff hfrac1
    linarith
  constructor
  · calc lo = (10 : ℝ) ^ Real.logb 10 lo :=
        (Real.rpow_logb (by norm_num) (by norm_num) hlo).symm
    _ ≤ _ := Real.rpow_le_rpow_of_exponent_le (by norm_num) hexp_lo
  · calc (10 : ℝ) ^ (Real.logb 10 lo +
          (Real.logb 10 hi - Real.logb 10 lo) * (i : ℝ) / ((num : ℝ) - 1)) ≤
        (10 : ℝ) ^ Real.logb 10 hi :=
        Real.rpow_le_rpow_of_exponent_le (by norm_num) hexp_hi
    _ = hi := Real.rpow_logb (by norm_num) (by norm_num) hhi

/-- Claim C8: the base Moody diagram has exactly 20 turbulent curves (one per
roughness value, each with 100 points whose Reynolds numbers lie in
[4000, 1e8]), one laminar curve with 20 points in [600, 2000], one
transitional curve with 50 points in [2000, 4000], and axis limits
Re in [600, 1e8] and f in [0.008, 0.10]. -/
theorem claim_C8_chart_shape (solve : Solver) (plotPoint : Bool) (pt : ℝ × ℝ)
    (marker : String) (markersize : ℝ) (mec mfc : String)
    (label : Option String) (clear_plot : Bool) (M : MoodyChart)
    (hM : M = plotMoody solve plotPoint pt marker markersize mec mfc label
      clear_plot) :
    M.turbulentCurves.length = 20 ∧
    (∀ c ∈ M.turbulentCurves,
      c.length = 100 ∧ ∀ q ∈ c, 4000 ≤ q.1 ∧ q.1 ≤ 1e8) ∧
    M.laminarCurve.length = 20 ∧
    (∀ q ∈ M.laminarCurve, 600 ≤ q.1 ∧ q.1 ≤ 2000) ∧
    M.transitionCurve.length = 50 ∧
    (∀ q ∈ M.transitionCurve, 2000 ≤ q.1 ∧ q.1 ≤ 4000) ∧
    M.xlim = (600, 1e8) ∧ M.ylim = (0.008, 0.10) := by
  subst hM
  have memCB : ∀ x ∈ ReValsCB, (4000 : ℝ) ≤ x ∧ x ≤ 1e8 :=
    @logspace_mem_Icc 4000 1e8 (by norm_num) (by norm_num) 100 (by norm_num)
  have memL : ∀ x ∈ ReValsL, (600 : ℝ) ≤ x ∧ x ≤ 2000 :=
    @logspace_mem_Icc 600 2000 (by norm_num) (by norm_num) 20 (by norm_num)
  have memT : ∀ x ∈ ReValsTrans, (2000 : ℝ) ≤ x ∧ x ≤ 4000 :=
    @logspace_mem_Icc 2000 4000 (by norm_num) (by norm_num) 50 (by norm_num)
  refine ⟨?_, ?_, ?_, ?_, ?_, ?_, rfl, rfl⟩
  · simp only [plotMoody, List.length_map, rrVals]
    rfl
  · intro c hc
    simp only [plotMoody] at hc
    rcases List.mem_map.mp hc with ⟨rr, _, rfl⟩
    constructor
    · simp only [List.length_map, ReValsCB, logspace, List.length_range]
    · intro q hq
      rcases List.mem_map.mp hq with ⟨Re, hRe, rfl⟩
      exact memCB Re hRe
  · simp only [plotMoody, List.length_map, ReValsL, logspace, List.length_range]
  · intro q hq
    simp only [plotMoody] at hq
    rcases List.mem_map.mp hq with ⟨Re, hRe, rfl⟩
    exact memL Re hRe
  · simp only [plotMoody, List.length_map, ReValsTrans, logspace,
      List.length_range]
  · intro q hq
    simp only [plotMoody] at hq
    rcases List.mem_map.mp hq with ⟨Re, hRe, rfl⟩
    exact memT Re hRe

/-- Witness for C8 with concrete arguments: the chart built by
`plotMoody(oneSolver, False, (0,0), ...)` has exactly 20 turbulent curves. -/
theorem claim_C8_chart_shape_witness :
    plotMoody oneSolver false (0, 0) "o" 10 "red" "none" none false =
      plotMoody oneSolver false (0, 0) "o" 10 "red" "none" none false ∧
    (plotMoody oneSolver false (0, 0) "o" 10 "red" "none" none
      false).turbulentCurves.length = 20 :=
  ⟨rfl, (claim_C8_chart_shape oneSolver false (0, 0) "o" 10 "red" "none" none
    false _ rfl).1⟩

/-- Claim C10: `clear_plot` has no effect: two `plotMoody` calls differing
only in `clear_plot` build identical charts (the parameter is accepted but
never read in the body), even though `PlotPoint` in hw5b.py passes
`clear_plot=True` expecting the plot to be cleared — its base chart equals
the one a `clear_plot=False` call would give. -/
theorem claim_C10_clear_plot_unused (solve : Solver) (plotPoint : Bool)
    (pt : ℝ × ℝ) (marker : String) (markersize : ℝ) (mec mfc : String)
    (label : Option String) :
    plotMoody solve plotPoint pt marker markersize mec mfc label true =
      plotMoody solve plotPoint pt marker markersize mec mfc label false ∧
    PlotPointBaseChart solve =
      plotMoody solve false (0, 0) "o" 10 "red" "none" none false :=
  ⟨rfl, rfl⟩

/-- Claim C9: for fixed rr in [0, 0.05], the turbulent friction factor is
non-increasing in Re.  In the embedding the turbulent branch value is the
root of the Colebrook residual `cb` that the solver is asked for; the
theorem states that any positive roots at 4000 ≤ Re1 ≤ Re2 are ordered
f2 ≤ f1.  (The residual is strictly decreasing in f and decreasing in Re
on the positive quadrant, which forces the ordering.) -/
theorem claim_C9_turbulent_monotone (rr Re1 Re2 f1 f2 : ℝ)
    (hrr0 : 0 ≤ rr) (hrr1 : rr ≤ 0.05) (h4 : 4000 ≤ Re1) (h12 : Re1 ≤ Re2)
    (hf1 : 0 < f1) (hf2 : 0 < f2)
    (r1 : cb Re1 rr f1 = 0) (r2 : cb Re2 rr f2 = 0) : f2 ≤ f1 := by
  by_contra hcon
  push_neg at hcon
  have hRe1 : (0 : ℝ) < Re1 := by linarith
  have hRe2 : (0 : ℝ) < Re2 := by linarith
  have hs1 : (0 : ℝ) < Real.sqrt f1 := Real.sqrt_pos.mpr hf1
  have hs2 : (0 : ℝ) < Real.sqrt f2 := Real.sqrt_pos.mpr hf2
  have hs12 : Real.sqrt f1 < Real.sqrt f2 :=
    Real.sqrt_lt_sqrt (le_of_lt hf1) hcon
  have habs1 : |f1| = f1 := abs_of_pos hf1
  have habs2 : |f2| = f2 := abs_of_pos hf2
  have key_f : cb Re1 rr f2 < cb Re1 rr f1 := by
    unfold cb
    rw [habs1, habs2]
    have t1 : 1 / Real.sqrt f2 < 1 / Real.sqrt f1 :=
      one_div_lt_one_div_of_lt hs1 hs12
    have hmul : Re1 * Real.sqrt f1 < Re1 * Real.sqrt f2 :=
      mul_lt_mul_of_pos_left hs12 hRe1
    have t2 : 2.51 / (Re1 * Real.sqrt f2) < 2.51 / (Re1 * Real.sqrt f1) :=
      div_lt_div_of_pos_left (by norm_num) (mul_pos hRe1 hs1) hmul
    have harg2 : (0 : ℝ) < rr / 3.7 + 2.51 / (Re1 * Real.sqrt f2) :=
      add_pos_of_nonneg_of_pos (div_nonneg hrr0 (by norm_num))
        (div_pos (by norm_num) (mul_pos hRe1 hs2))
    have t3 : Real.logb 10 (rr / 3.7 + 2.51 / (Re1 * Real.sqrt f2)) <
        Real.logb 10 (rr / 3.7 + 2.51 / (Re1 * Real.sqrt f1)) :=
      Real.logb_lt_logb (by norm_num) harg2 (by linarith)
    linarith
  have key_Re : cb Re2 rr f2 ≤ cb Re1 rr f2 := by
    unfold cb
    rw [habs2]
    have hmul : Re1 * Real.sqrt f2 ≤ Re2 * Real.sqrt f2 :=
      mul_le_mul_of_nonneg_right h12 (le_of_lt hs2)
    have t2 : 2.51 / (Re2 * Real.sqrt f2) ≤ 2.51 / (Re1 * Real.sqrt f2) :=
      div_le_div_of_nonneg_left (by norm_num) (mul_pos hRe1 hs2) hmul
    have harg2 : (0 : ℝ) < rr / 3.7 + 2.51 / (Re2 * Real.sqrt f2) :=
      add_pos_of_nonneg_of_pos (div_nonneg hrr0 (by norm_num))
        (div_pos (by norm_num) (mul_pos hRe2 hs2))
    have t3 : Real.logb 10 (rr / 3.7 + 2.51 / (Re2 * Real.sqrt f2)) ≤
        Real.logb 10 (rr / 3.7 + 2.51 / (Re1 * Real.sqrt f2)) :=
      Real.logb_le_logb_of_le (by norm_num) harg2 (by linarith)
    linarith
  rw [r1] at key_f
  linarith [key_Re.trans_lt key_f, r2.symm.le]

/-- Helper for the C9 witness: f = 1/100 is an exact positive root of the
Colebrook residual at Re = 2510000, rr = 0 (there 1/sqrt(f) = 10 and the
log argument is exactly 1e-5, so the residual is 10 + 2*(-5) = 0). -/
lemma cb_root_at_concrete : cb 2510000 0 (1 / 100) = 0 := by
  unfold cb
  rw [abs_of_pos (by norm_num : (0 : ℝ) < 1 / 100)]
  rw [show (1 / 100 : ℝ) = (1 / 10) ^ 2 by norm_num,
    Real.sqrt_sq (by norm_num : (0 : ℝ) ≤ 1 / 10)]
  rw [show (0 : ℝ) / 3.7 + 2.51 / (2510000 * (1 / 10)) = 1 / 100000 by
    norm_num]
  rw [show (1 / 100000 : ℝ) = ((10 : ℝ) ^ (5 : ℕ))⁻¹ by norm_num]
  rw [Real.logb_inv, Real.logb_pow, Real.logb_self_eq_one (by norm_num)]
  norm_num

/-- Witness for C9 at rr = 0, Re1 = Re2 = 2510000, f1 = f2 = 1/100, an exact
root of the embedded Colebrook residual. -/
theorem claim_C9_turbulent_monotone_witness :
    cb 2510000 0 (1 / 100) = 0 ∧ (1 / 100 : ℝ) ≤ 1 / 100 :=
  ⟨cb_root_at_concrete,
    claim_C9_turbulent_monotone 0 2510000 2510000 (1 / 100) (1 / 100) le_rfl
      (by norm_num) (by norm_num) le_rfl (by norm_num) (by norm_num)
      cb_root_at_concrete cb_root_at_concrete⟩

end HW5
